import Mathlib

/-!
Verification of the controller/arm slice of `stretch_body_rhc`.

The Python sources under `src/body/stretch_body/` (`xbox_controller.py`,
`gamepad_controller.py`, `arm.py`) are shallowly embedded below.

Conventions of the embedding:
* Python floats are modelled as `ℚ` (for the exact-arithmetic value-scaling
  code) or `ℝ` (for the arm's π-based unit conversions); machine ints as `ℤ`.
* The bytes/str lines read from the `xboxdrv` subprocess pipe are modelled as
  `List Char`; one call to `select`+`readline` draining the pipe is modelled
  by an explicit list of the lines that were buffered.
* Wall-clock time (`time.time()`) is passed in as a `ℚ` argument `now`; the
  two `time.time()` calls inside one `Joystick.refresh` body are modelled as
  the same instant.
* Raising `IOError` is modelled with `Except JoyError`.
-/

/-- The three `IOError` conditions the `Joystick` class raises
(`xbox_controller.py` lines 73, 85, 104). -/
inductive JoyError where
  | deviceNotFound
  | deviceNotDetected
  | disconnected
deriving DecidableEq, Repr

/-- Mutable state of a `Joystick` instance (`xbox_controller.py` lines 53-62):
`connectStatus`, `reading`, `refreshTime`, `refreshDelay`.  The subprocess
handle and pipe are external resources, not part of the value state. -/
structure JoyState where
  connectStatus : Bool
  reading : List Char
  refreshTime : ℚ
  refreshDelay : ℚ
deriving DecidableEq, Repr

/-- Embeds `self.reading = '0' * 140` (line 59). -/
def initialReading : List Char := List.replicate 140 '0'

/-- Embeds `response[0:7] == b'No Xbox'` (line 72). -/
def isNoXbox (r : List Char) : Bool := r.take 7 == "No Xbox".toList

/-- Embeds `response[0:12].lower() == b'press ctrl-c'` (line 75). -/
def isPressCtrlC (r : List Char) : Bool :=
  (r.take 12).map Char.toLower == "press ctrl-c".toList

/-- The constructor's wait loop (lines 65-81): processes the lines read from
the pipe while `not found`; the 2-second wall-clock timeout is modelled by
exhaustion of the list of available lines.  State carried: `found`,
`connectStatus`, `reading`. -/
def joyInitLoop : List (List Char) → Bool → Bool → List Char →
    Except JoyError (Bool × Bool × List Char)
  | [], found, connect, reading => .ok (found, connect, reading)
  | r :: rest, found, connect, reading =>
    if found then .ok (found, connect, reading)
    else if isNoXbox r then .error .deviceNotFound
    else
      let found1 := found || isPressCtrlC r
      if r.length = 140 then joyInitLoop rest true true r
      else joyInitLoop rest found1 connect reading

/-- Embeds `Joystick.__init__` (lines 53-85): starts from `connectStatus = False`,
`reading = '0'*140`, `refreshTime = 0`, `refreshDelay = 1/refreshRate`, runs
the wait loop, and raises device-not-detected if the loop ends without
`found`. -/
def joyInit (refreshRate : ℚ) (lines : List (List Char)) :
    Except JoyError JoyState :=
  match joyInitLoop lines false false initialReading with
  | .error e => .error e
  | .ok (found, connect, reading) =>
    if found then .ok ⟨connect, reading, 0, 1 / refreshRate⟩
    else .error .deviceNotDetected

/-- The drain loop inside `Joystick.refresh` (lines 100-105): reads every
buffered line in order, raising on a zero-length read, and keeps the last
line read (`cur` is the most recent line). -/
def drainLines : List (List Char) → List Char → Except JoyError (List Char)
  | [], cur => .ok cur
  | r :: rest, _ => if r.length = 0 then .error .disconnected else drainLines rest r

/-- Embeds `Joystick.refresh` (lines 92-111).  `now` is the value of `time.time()`;
`lines` are the lines buffered on the pipe (`[]` models `select` reporting
nothing readable). -/
def joyRefresh (s : JoyState) (now : ℚ) (lines : List (List Char)) :
    Except JoyError JoyState :=
  if s.refreshTime < now then
    let s1 : JoyState := { s with refreshTime := now + s.refreshDelay }
    match lines with
    | [] => .ok s1
    | r :: rest =>
      match drainLines (r :: rest) [] with
      | .error e => .error e
      | .ok response =>
        if response.length = 140 then
          .ok { s1 with connectStatus := true, reading := response }
        else
          .ok { s1 with connectStatus := false }
  else .ok s

/-- Embeds `Joystick.axisScale` (lines 154-161), on the raw integer decoded from the
reading and the integer deadzone; the Python float result is the exact
rational. -/
def axisScale (raw deadzone : ℤ) : ℚ :=
  if |raw| < deadzone then 0
  else if raw < 0 then ((raw : ℚ) + deadzone) / (32768 - deadzone)
  else ((raw : ℚ) - deadzone) / (32767 - deadzone)

/-- Embeds `reading[a:b]` for the fixed accessor offsets. -/
def readingSlice (r : List Char) (a b : ℕ) : List Char := (r.drop a).take (b - a)

/-- The half-open character-offset ranges used by the typed accessors
(lines 129-246): sticks, dpad, buttons, bumpers, triggers. -/
def accessorRanges : List (ℕ × ℕ) :=
  [(3, 9), (13, 19), (24, 30), (34, 40), (45, 46), (50, 51), (55, 56),
   (60, 61), (68, 69), (76, 77), (84, 85), (90, 91), (95, 96), (100, 101),
   (104, 105), (108, 109), (112, 113), (118, 119), (123, 124), (129, 132),
   (136, 139)]

/-- States a `Joystick` can be in: produced by a successful `__init__`, or by
a successful `refresh` from a reachable state. -/
inductive JoyReachable : JoyState → Prop where
  | boot (rate : ℚ) (lines : List (List Char)) (s : JoyState) :
      joyInit rate lines = Except.ok s → JoyReachable s
  | step (s : JoyState) (now : ℚ) (lines : List (List Char)) (s2 : JoyState) :
      JoyReachable s → joyRefresh s now lines = Except.ok s2 → JoyReachable s2

/-! ### Input primitives (`xbox_controller.py` lines 268-333) -/

/-- A Python value stored in a primitive field or a snapshot entry: the code
stores booleans (initial button state), floats (sticks/triggers) and ints
(button fields after `XboxController.update` writes accessor results into
them). -/
inductive GPValue where
  | ofBool (b : Bool)
  | ofRat (q : ℚ)
  | ofInt (z : ℤ)
deriving DecidableEq, Repr

/-- Embeds `Stick` (lines 268-287): two axis values and the normalization constant
`float(pow(2, 15))`. -/
structure Stick where
  x : ℚ
  y : ℚ
  norm : ℚ
deriving DecidableEq, Repr

/-- Embeds `Stick.__init__`. -/
def Stick.construct : Stick := { x := 0, y := 0, norm := 2 ^ 15 }

/-- Embeds `Stick.update_x` : `self.x = int(abs_x) / self.norm`. -/
def Stick.update_x (s : Stick) (abs_x : ℤ) : Stick :=
  { s with x := (abs_x : ℚ) / s.norm }

/-- Embeds `Stick.update_y` : `self.y = -int(abs_y) / self.norm`. -/
def Stick.update_y (s : Stick) (abs_y : ℤ) : Stick :=
  { s with y := -(abs_y : ℚ) / s.norm }

/-- Embeds `Button` (lines 290-301): a single `pressed` field; initialized to
`False`, while `XboxController.update` later stores raw ints in it, hence the
`GPValue` type. -/
structure Button where
  pressed : GPValue
deriving DecidableEq, Repr

/-- Embeds `Button.__init__`. -/
def Button.construct : Button := { pressed := .ofBool false }

/-- Embeds `Button.update` : state 0 clears, state 1 sets, anything else leaves
`pressed` unchanged. -/
def Button.update (b : Button) (state : ℤ) : Button :=
  if state = 0 then { pressed := .ofBool false }
  else if state = 1 then { pressed := .ofBool true }
  else b

/-- Embeds `Trigger` (lines 304-333): normalization divisor `float(pow(2, num_bits) - 1)`
with `num_bits = 10` for `xbox_one=True` and `8` otherwise, plus the `pulled`
value. -/
structure Trigger where
  norm : ℚ
  pulled : ℚ
deriving DecidableEq, Repr

/-- Embeds `Trigger.__init__(xbox_one)`; the Python default for `xbox_one` is
`False`. -/
def Trigger.construct (xbox_one : Bool) : Trigger :=
  { norm := if xbox_one then 2 ^ 10 - 1 else 2 ^ 8 - 1, pulled := 0 }

/-- Embeds `Trigger.update` : `pulled = int(state) / norm`, then clamped down to 1.0
if it exceeds 1.0. -/
def Trigger.update (t : Trigger) (state : ℤ) : Trigger :=
  let pulled := (state : ℚ) / t.norm
  if pulled > 1 then { t with pulled := 1 } else { t with pulled := pulled }

/-! ### XboxController aggregator (`xbox_controller.py` lines 337-480) -/

/-- The values produced by the nineteen `Joystick` accessor calls made inside
`XboxController.update` (lines 394-421): sticks with deadzone forced to 0,
dpad/buttons/bumpers as raw decoded ints, triggers as floats.  One `update`
performs this whole read sequence against the client; we pass its net result
in as a value (the refresh plumbing itself is modelled on `JoyState`
directly). -/
structure JoyRead where
  leftX : ℚ
  leftY : ℚ
  rightX : ℚ
  rightY : ℚ
  dpadLeft : ℤ
  dpadRight : ℤ
  dpadUp : ℤ
  dpadDown : ℤ
  btnA : ℤ
  btnB : ℤ
  btnX : ℤ
  btnY : ℤ
  leftThumbstick : ℤ
  rightThumbstick : ℤ
  leftBumper : ℤ
  rightBumper : ℤ
  leftTrigger : ℚ
  rightTrigger : ℚ
  startBtn : ℤ
  backBtn : ℤ
  guideBtn : ℤ
deriving DecidableEq, Repr

/-- Instance state of `XboxController` (lines 342-370): the input primitives
and the optional driver-process client `joy`.  The `threading.Lock` is a
concurrency artifact with no value content. -/
structure XboxController where
  left_stick : Stick
  right_stick : Stick
  left_stick_button : Button
  right_stick_button : Button
  middle_led_ring_button : Button
  bottom_button : Button
  top_button : Button
  left_button : Button
  right_button : Button
  right_shoulder_button : Button
  left_shoulder_button : Button
  select_button : Button
  start_button : Button
  left_trigger : Trigger
  right_trigger : Trigger
  left_pad : Button
  right_pad : Button
  top_pad : Button
  bottom_pad : Button
  joy : Option JoyState
deriving DecidableEq, Repr

/-- Embeds `XboxController.__init__` (lines 342-370): fresh zero primitives, both
triggers with `xbox_one=False`, `joy = None`. -/
def XboxController.construct : XboxController :=
  { left_stick := Stick.construct
    right_stick := Stick.construct
    left_stick_button := Button.construct
    right_stick_button := Button.construct
    middle_led_ring_button := Button.construct
    bottom_button := Button.construct
    top_button := Button.construct
    left_button := Button.construct
    right_button := Button.construct
    right_shoulder_button := Button.construct
    left_shoulder_button := Button.construct
    select_button := Button.construct
    start_button := Button.construct
    left_trigger := Trigger.construct false
    right_trigger := Trigger.construct false
    left_pad := Button.construct
    right_pad := Button.construct
    top_pad := Button.construct
    bottom_pad := Button.construct
    joy := none }

/-- Embeds `XboxController.start` (lines 372-383) as the spec describes it: the call
`xbox.Joystick()` on line 377 is embedded as the in-file `Joystick`
constructor, whose outcome is the `joyCtor` argument; an `IOError` from it is
caught, the handle is cleared, and `True` is returned either way.  (The
process-killing side effect on lines 375-376 has no value content.)  Note
that on the source as written the name `xbox` is unbound — see
`xbox_start_name_resolution_bug`. -/
def XboxController.start (c : XboxController)
    (joyCtor : Except JoyError JoyState) : XboxController × Bool :=
  match joyCtor with
  | .ok j => ({ c with joy := some j }, true)
  | .error _ => ({ c with joy := none }, true)

/-- Embeds `XboxController.update` (lines 390-453): nothing happens without a
client; with a client, the read sequence either raises `IOError` (caught: the
client is closed and cleared, state untouched) or yields the accessor values,
which are written into the primitives — raw ints land in the button
`pressed` fields, floats in the stick/trigger fields. -/
def XboxController.update (c : XboxController)
    (readRes : Except JoyError JoyRead) : XboxController :=
  match c.joy with
  | none => c
  | some _ =>
    match readRes with
    | .error _ => { c with joy := none }
    | .ok r =>
      { c with
        left_stick := { c.left_stick with x := r.leftX, y := r.leftY }
        right_stick := { c.right_stick with x := r.rightX, y := r.rightY }
        left_pad := { pressed := .ofInt r.dpadLeft }
        right_pad := { pressed := .ofInt r.dpadRight }
        top_pad := { pressed := .ofInt r.dpadUp }
        bottom_pad := { pressed := .ofInt r.dpadDown }
        bottom_button := { pressed := .ofInt r.btnA }
        top_button := { pressed := .ofInt r.btnY }
        left_button := { pressed := .ofInt r.btnX }
        right_button := { pressed := .ofInt r.btnB }
        left_stick_button := { pressed := .ofInt r.leftThumbstick }
        right_stick_button := { pressed := .ofInt r.rightThumbstick }
        left_shoulder_button := { pressed := .ofInt r.leftBumper }
        right_shoulder_button := { pressed := .ofInt r.rightBumper }
        left_trigger := { c.left_trigger with pulled := r.leftTrigger }
        right_trigger := { c.right_trigger with pulled := r.rightTrigger }
        start_button := { pressed := .ofInt r.startBtn }
        select_button := { pressed := .ofInt r.backBtn }
        middle_led_ring_button := { pressed := .ofInt r.guideBtn } }

/-- Embeds `XboxController.get_state` (lines 456-480): runs `update`, then builds
the snapshot mapping, returned together with the updated instance state. -/
def XboxController.get_state (c : XboxController)
    (readRes : Except JoyError JoyRead) :
    XboxController × List (String × GPValue) :=
  let c1 := c.update readRes
  (c1,
   [("middle_led_ring_button_pressed", c1.middle_led_ring_button.pressed),
    ("left_stick_x", .ofRat c1.left_stick.x),
    ("left_stick_y", .ofRat c1.left_stick.y),
    ("right_stick_x", .ofRat c1.right_stick.x),
    ("right_stick_y", .ofRat c1.right_stick.y),
    ("left_stick_button_pressed", c1.left_stick_button.pressed),
    ("right_stick_button_pressed", c1.right_stick_button.pressed),
    ("bottom_button_pressed", c1.bottom_button.pressed),
    ("top_button_pressed", c1.top_button.pressed),
    ("left_button_pressed", c1.left_button.pressed),
    ("right_button_pressed", c1.right_button.pressed),
    ("left_shoulder_button_pressed", c1.left_shoulder_button.pressed),
    ("right_shoulder_button_pressed", c1.right_shoulder_button.pressed),
    ("select_button_pressed", c1.select_button.pressed),
    ("start_button_pressed", c1.start_button.pressed),
    ("left_trigger_pulled", .ofRat c1.left_trigger.pulled),
    ("right_trigger_pulled", .ofRat c1.right_trigger.pulled),
    ("bottom_pad_pressed", c1.bottom_pad.pressed),
    ("top_pad_pressed", c1.top_pad.pressed),
    ("left_pad_pressed", c1.left_pad.pressed),
    ("right_pad_pressed", c1.right_pad.pressed)])

/-- Names bound at module level in `xbox_controller.py`: the imports
(lines 2-6, 37-39) and the class/function definitions.  No binding named
`xbox` exists anywhere in the file (and `xbox` is not a Python builtin), yet
line 377 reads the free name `xbox`, so `XboxController.start` raises
`NameError` on every call, before the `except IOError` handler can apply. -/
def xboxControllerModuleNames : List String :=
  ["print_function", "threading", "time", "subprocess", "psutil", "select",
   "Joystick", "Stick", "Button", "Trigger", "XboxController", "main"]

/-- The global (free) names referenced by the body of `XboxController.start`
(lines 372-383): `psutil`, `subprocess`, `xbox`, and the builtins `IOError`
and `print`. -/
def xboxStartFreeNames : List String :=
  ["psutil", "subprocess", "xbox", "IOError", "print"]

/-! ### GamePadController (`gamepad_controller.py`) -/

/-- The primitive-object attributes that `GamePadController.get_state` and
`set_zero_state` operate on (the same shape the Xbox aggregator owns, minus
the client handle).  Note `GamePadController.__init__` as written never
creates these attributes — see `gamePadInitAttrs`. -/
structure GamePadPrimitives where
  left_stick : Stick
  right_stick : Stick
  left_stick_button : Button
  right_stick_button : Button
  middle_led_ring_button : Button
  bottom_button : Button
  top_button : Button
  left_button : Button
  right_button : Button
  right_shoulder_button : Button
  left_shoulder_button : Button
  select_button : Button
  start_button : Button
  left_trigger : Trigger
  right_trigger : Trigger
  left_pad : Button
  right_pad : Button
  top_pad : Button
  bottom_pad : Button
deriving DecidableEq, Repr

/-- Embeds `GamePadController.set_zero_state` (lines 62-86): every button field set
to `False`, stick axes and trigger pulls to 0, under the lock. -/
def gamePadSetZeroState (g : GamePadPrimitives) : GamePadPrimitives :=
  { g with
    middle_led_ring_button := { pressed := .ofBool false }
    left_stick := { g.left_stick with x := 0, y := 0 }
    right_stick := { g.right_stick with x := 0, y := 0 }
    left_stick_button := { pressed := .ofBool false }
    right_stick_button := { pressed := .ofBool false }
    bottom_button := { pressed := .ofBool false }
    top_button := { pressed := .ofBool false }
    left_button := { pressed := .ofBool false }
    right_button := { pressed := .ofBool false }
    left_shoulder_button := { pressed := .ofBool false }
    right_shoulder_button := { pressed := .ofBool false }
    select_button := { pressed := .ofBool false }
    start_button := { pressed := .ofBool false }
    bottom_pad := { pressed := .ofBool false }
    top_pad := { pressed := .ofBool false }
    left_pad := { pressed := .ofBool false }
    right_pad := { pressed := .ofBool false }
    left_trigger := { g.left_trigger with pulled := 0 }
    right_trigger := { g.right_trigger with pulled := 0 } }

/-- Embeds `GamePadController.get_state` (lines 88-111): the snapshot mapping built
under the lock, key for key the same dictionary literal as the Xbox
aggregator's. -/
def gamePadGetState (g : GamePadPrimitives) : List (String × GPValue) :=
  [("middle_led_ring_button_pressed", g.middle_led_ring_button.pressed),
   ("left_stick_x", .ofRat g.left_stick.x),
   ("left_stick_y", .ofRat g.left_stick.y),
   ("right_stick_x", .ofRat g.right_stick.x),
   ("right_stick_y", .ofRat g.right_stick.y),
   ("left_stick_button_pressed", g.left_stick_button.pressed),
   ("right_stick_button_pressed", g.right_stick_button.pressed),
   ("bottom_button_pressed", g.bottom_button.pressed),
   ("top_button_pressed", g.top_button.pressed),
   ("left_button_pressed", g.left_button.pressed),
   ("right_button_pressed", g.right_button.pressed),
   ("left_shoulder_button_pressed", g.left_shoulder_button.pressed),
   ("right_shoulder_button_pressed", g.right_shoulder_button.pressed),
   ("select_button_pressed", g.select_button.pressed),
   ("start_button_pressed", g.start_button.pressed),
   ("left_trigger_pulled", .ofRat g.left_trigger.pulled),
   ("right_trigger_pulled", .ofRat g.right_trigger.pulled),
   ("bottom_pad_pressed", g.bottom_pad.pressed),
   ("top_pad_pressed", g.top_pad.pressed),
   ("left_pad_pressed", g.left_pad.pressed),
   ("right_pad_pressed", g.right_pad.pressed)]

/-- The instance attributes assigned by `GamePadController.__init__`
(`gamepad_controller.py` lines 25-41) before it calls `set_zero_state`:
`print_events`, `_i`, `print_dongle_status`, `ros_logger`, `lock`, `daemon`
(a `threading.Thread` property), `stop_thread`, `shutdown_flag`.
`threading.Thread.__init__` adds only underscore-prefixed thread internals,
none named like a controller primitive.  No `Stick`/`Button`/`Trigger`
objects are ever created. -/
def gamePadInitAttrs : List String :=
  ["print_events", "_i", "print_dongle_status", "ros_logger", "lock",
   "daemon", "stop_thread", "shutdown_flag"]

/-- The instance attributes read (in source order) by
`GamePadController.set_zero_state` (lines 62-86), which `__init__` invokes on
line 40. -/
def setZeroStateReads : List String :=
  ["lock", "middle_led_ring_button", "left_stick", "right_stick",
   "left_stick_button", "right_stick_button", "bottom_button", "top_button",
   "left_button", "right_button", "left_shoulder_button",
   "right_shoulder_button", "select_button", "start_button", "bottom_pad",
   "top_pad", "left_pad", "right_pad", "left_trigger", "right_trigger"]

/-- The first attribute `set_zero_state` dereferences that `__init__` never
assigned: Python raises `AttributeError` there, so `GamePadController`
construction fails. -/
def gamePadFirstMissingAttr : Option String :=
  setZeroStateReads.find? (fun a => !(gamePadInitAttrs.contains a))

/-! ### Arm (`arm.py`) -/

/-- Embeds `Arm.motor_rad_to_translate_m` (arm.py lines 19-20):
`(chain_pitch * chain_sprocket_teeth / gr_spur / (math.pi * 2)) * ang`. -/
noncomputable def motor_rad_to_translate_m
    (chain_pitch chain_sprocket_teeth gr_spur ang : ℝ) : ℝ :=
  chain_pitch * chain_sprocket_teeth / gr_spur / (Real.pi * 2) * ang

/-- Embeds `Arm.translate_m_to_motor_rad` (arm.py lines 22-23):
`x / (chain_pitch * chain_sprocket_teeth / gr_spur / (math.pi * 2))`. -/
noncomputable def translate_m_to_motor_rad
    (chain_pitch chain_sprocket_teeth gr_spur x : ℝ) : ℝ :=
  x / (chain_pitch * chain_sprocket_teeth / gr_spur / (Real.pi * 2))

/-- A Python argument value in a velocity-command call: `None`, a number, a
boolean, or the `Arm` instance itself. -/
inductive PyVal where
  | pyNone
  | num (q : ℚ)
  | boolean (b : Bool)
  | armObj
deriving DecidableEq, Repr

/-- Modelled from the spec: the parameter list the external
`PrismaticJoint` velocity commands bind.  `PrismaticJoint` is a
depended-upon base abstraction not present under `src/`; per spec §4.1/§6
its safety-limited and direct velocity commands are instance methods taking
the same parameters as `Arm.set_velocity` (`v_m`, optional `a_m`,
`stiffness`, contact thresholds, `req_calibration`, legacy aliases, the
optional ones defaulting to `None`), preceded by the instance (`self`).
`safe_variant` records which of the two methods was invoked. -/
structure VelocityCall where
  self_obj : PyVal
  v_m : PyVal
  a_m : PyVal
  stiffness : PyVal
  contact_thresh_pos_N : PyVal
  contact_thresh_neg_N : PyVal
  req_calibration : PyVal
  contact_thresh_pos : PyVal
  contact_thresh_neg : PyVal
  safe_variant : Bool
deriving DecidableEq, Repr

/-- Embeds `PrismaticJoint.set_safe_velocity` invoked through the class with eight
positional arguments, the way `arm.py` line 31 does: the first argument binds
the method's `self` parameter, each later argument shifts one slot left, and
the last parameter keeps its default. -/
def prismaticSetSafeVelocity (p1 p2 p3 p4 p5 p6 p7 p8 : PyVal) : VelocityCall :=
  { self_obj := p1, v_m := p2, a_m := p3, stiffness := p4,
    contact_thresh_pos_N := p5, contact_thresh_neg_N := p6,
    req_calibration := p7, contact_thresh_pos := p8,
    contact_thresh_neg := .pyNone, safe_variant := true }

/-- Embeds `PrismaticJoint.set_velocity` invoked through the class with eight
positional arguments, the way `arm.py` line 33 does. -/
def prismaticSetVelocity (p1 p2 p3 p4 p5 p6 p7 p8 : PyVal) : VelocityCall :=
  { self_obj := p1, v_m := p2, a_m := p3, stiffness := p4,
    contact_thresh_pos_N := p5, contact_thresh_neg_N := p6,
    req_calibration := p7, contact_thresh_pos := p8,
    contact_thresh_neg := .pyNone, safe_variant := false }

/-- Embeds `Arm.set_velocity` (arm.py lines 29-33), translated exactly as written:
the branch on `self.params['safe_set_velocit'] == 1` selects the base
method, which is then called through the class *without* passing `selfArm`,
so `v_m` lands in the base method's `self` slot and every other argument
shifts. -/
def Arm.set_velocity (selfArm : PyVal) (safe_set_velocit : ℤ)
    (v_m a_m stiffness contact_thresh_pos_N contact_thresh_neg_N
     req_calibration contact_thresh_pos contact_thresh_neg : PyVal) :
    VelocityCall :=
  if safe_set_velocit = 1 then
    prismaticSetSafeVelocity v_m a_m stiffness contact_thresh_pos_N
      contact_thresh_neg_N req_calibration contact_thresh_pos
      contact_thresh_neg
  else
    prismaticSetVelocity v_m a_m stiffness contact_thresh_pos_N
      contact_thresh_neg_N req_calibration contact_thresh_pos
      contact_thresh_neg

/-! ### Shared snapshot schema and concrete states used by witnesses -/

/-- The key list both `get_state` dictionary literals spell out, in source
order (`xbox_controller.py` lines 459-479, `gamepad_controller.py` lines
90-110). -/
def snapshotKeys : List String :=
  ["middle_led_ring_button_pressed", "left_stick_x", "left_stick_y",
   "right_stick_x", "right_stick_y", "left_stick_button_pressed",
   "right_stick_button_pressed", "bottom_button_pressed",
   "top_button_pressed", "left_button_pressed", "right_button_pressed",
   "left_shoulder_button_pressed", "right_shoulder_button_pressed",
   "select_button_pressed", "start_button_pressed", "left_trigger_pulled",
   "right_trigger_pulled", "bottom_pad_pressed", "top_pad_pressed",
   "left_pad_pressed", "right_pad_pressed"]

/-- A ready line the driver can emit during construction. -/
def ctrlCLine : List Char := "press ctrl-c to quit".toList

/-- The `Joystick` state after a construction that saw only the ready line:
not yet connected, all-zeros reading, default 30 Hz refresh. -/
def js0 : JoyState := ⟨false, initialReading, 0, 1 / 30⟩

/-! ### Helper lemmas about the refresh drain loop -/

theorem drainLines_ok_of_nonzero (lines : List (List Char)) (cur : List Char)
    (h : ∀ r ∈ lines, r.length ≠ 0) :
    drainLines lines cur = Except.ok (lines.getLastD cur) := by
  induction lines generalizing cur with
  | nil => rfl
  | cons r rest ih =>
    have hr : r.length ≠ 0 := h r (by simp)
    rw [List.getLastD_cons]
    simp only [drainLines, if_neg hr]
    exact ih r (fun x hx => h x (by simp [hx]))

theorem drainLines_error_of_zero (lines : List (List Char)) (cur : List Char)
    (h : ∃ r ∈ lines, r.length = 0) :
    drainLines lines cur = Except.error JoyError.disconnected := by
  induction lines generalizing cur with
  | nil => simp at h
  | cons r rest ih =>
    by_cases hr : r.length = 0
    · simp [drainLines, hr]
    · obtain ⟨x, hx, hx0⟩ := h
      rcases List.mem_cons.mp hx with rfl | hx2
      · exact absurd hx0 hr
      · simp only [drainLines, if_neg hr]
        exact ih r ⟨x, hx2, hx0⟩

/-- C6: a due `Joystick.refresh` that drains only non-empty lines and whose
last line does not have length 140 marks the controller disconnected while
leaving `reading` (hence every decoded field value) unchanged; only
`refreshTime` and `connectStatus` move. -/
theorem refresh_non140_keeps_reading (s : JoyState) (now : ℚ)
    (lines : List (List Char)) (hdue : s.refreshTime < now)
    (hne : lines ≠ []) (hnz : ∀ r ∈ lines, r.length ≠ 0)
    (hlast : (lines.getLastD []).length ≠ 140) :
    joyRefresh s now lines =
      Except.ok { s with refreshTime := now + s.refreshDelay,
                         connectStatus := false } := by
  obtain ⟨r, rest, rfl⟩ := List.exists_cons_of_ne_nil hne
  simp only [joyRefresh, if_pos hdue]
  rw [drainLines_ok_of_nonzero _ _ hnz]
  dsimp only
  rw [if_neg hlast]

theorem refresh_non140_keeps_reading_witness :
    js0.refreshTime < 1 ∧
    joyRefresh js0 1 [['a', 'b', 'c']] =
      Except.ok { js0 with refreshTime := 1 + js0.refreshDelay,
                           connectStatus := false } :=
  ⟨by decide,
   refresh_non140_keeps_reading js0 1 [['a', 'b', 'c']]
     (by decide) (by decide) (by decide) (by decide)⟩

/-- C7: a due `Joystick.refresh` that encounters a zero-length read raises
the `Disconnected` condition, whatever the prior connection status (the state
`s`, including `s.connectStatus`, is arbitrary). -/
theorem refresh_zero_length_disconnects (s : JoyState) (now : ℚ)
    (lines : List (List Char)) (hdue : s.refreshTime < now)
    (hz : ∃ r ∈ lines, r.length = 0) :
    joyRefresh s now lines = Except.error JoyError.disconnected := by
  match lines with
  | [] => simp at hz
  | r :: rest =>
    simp only [joyRefresh, if_pos hdue]
    rw [drainLines_error_of_zero _ _ hz]

theorem refresh_zero_length_disconnects_witness :
    { js0 with connectStatus := true }.refreshTime < 1 ∧
    joyRefresh { js0 with connectStatus := true } 1 [['a'], []] =
      Except.error JoyError.disconnected :=
  ⟨by decide,
   refresh_zero_length_disconnects { js0 with connectStatus := true } 1
     [['a'], []] (by decide) ⟨[], by decide, rfl⟩⟩

/-- C8: the axis-scale rule of `Joystick.axisScale`: 0 inside the deadzone,
`(r + d) / (32768 - d)` on the negative side, `(r - d) / (32767 - d)`
otherwise, with exact saturation at the signed 16-bit extremes and 0 at
`{-3999, 0, 3999}` for the default deadzone 4000. -/
theorem axisScale_spec :
    (∀ raw deadzone : ℤ,
        (|raw| < deadzone → axisScale raw deadzone = 0) ∧
        (¬|raw| < deadzone → raw < 0 →
          axisScale raw deadzone = ((raw : ℚ) + deadzone) / (32768 - deadzone)) ∧
        (¬|raw| < deadzone → ¬raw < 0 →
          axisScale raw deadzone = ((raw : ℚ) - deadzone) / (32767 - deadzone))) ∧
    axisScale 32767 4000 = 1 ∧ axisScale (-32768) 4000 = -1 ∧
    axisScale (-3999) 4000 = 0 ∧ axisScale 0 4000 = 0 ∧
    axisScale 3999 4000 = 0 := by
  refine ⟨fun raw deadzone => ⟨?_, ?_, ?_⟩, ?_, ?_, ?_, ?_, ?_⟩
  · intro h; simp [axisScale, h]
  · intro h h2; simp [axisScale, h, h2]
  · intro h h2; simp [axisScale, h, h2]
  · norm_num [axisScale]
  · norm_num [axisScale]
  · norm_num [axisScale]
  · norm_num [axisScale]
  · norm_num [axisScale]

theorem axisScale_spec_witness :
    (-5000 : ℤ) < 0 ∧
    axisScale (-5000) 4000 = (((-5000 : ℤ) : ℚ) + 4000) / (32768 - 4000) :=
  ⟨by decide,
   (axisScale_spec.1 (-5000) 4000).2.1 (by decide) (by decide)⟩

/-- C9: a `Trigger` built with the Xbox-One (10-bit) flag divides by 1023,
the default 8-bit one by 255; `update` divides the raw state by the divisor
and clamps the result above at 1.0, so `update 300` on an 8-bit trigger
saturates to exactly 1.0. -/
theorem trigger_divisor_and_clamp :
    (Trigger.construct true).norm = 1023 ∧
    (Trigger.construct false).norm = 255 ∧
    (∀ (t : Trigger) (state : ℤ),
        (t.update state).pulled = min ((state : ℚ) / t.norm) 1) ∧
    ((Trigger.construct false).update 300).pulled = 1 := by
  refine ⟨by norm_num [Trigger.construct], by norm_num [Trigger.construct],
    ?_, by norm_num [Trigger.construct, Trigger.update]⟩
  intro t state
  by_cases h : ((state : ℚ) / t.norm) > 1
  · simp only [Trigger.update, if_pos h]
    exact (min_eq_right h.le).symm
  · simp only [Trigger.update, if_neg h]
    exact (min_eq_left (not_lt.mp h)).symm

/-- C5: for positive chain/sprocket/gear parameters, the arm's
position-to-angle conversion is the exact inverse of its angle-to-position
conversion: going position → angle → position is the identity. -/
theorem arm_translate_roundtrip (p t g x : ℝ)
    (hp : 0 < p) (ht : 0 < t) (hg : 0 < g) :
    motor_rad_to_translate_m p t g (translate_m_to_motor_rad p t g x) = x := by
  have hpi : (0 : ℝ) < Real.pi * 2 := by
    have := Real.pi_pos; linarith
  have hc : p * t / g / (Real.pi * 2) ≠ 0 :=
    ne_of_gt (div_pos (div_pos (mul_pos hp ht) hg) hpi)
  simp only [motor_rad_to_translate_m, translate_m_to_motor_rad]
  rw [mul_comm]
  exact div_mul_cancel₀ x hc

theorem arm_translate_roundtrip_witness :
    ((0 : ℝ) < 1 ∧ (0 : ℝ) < 1 ∧ (0 : ℝ) < 1) ∧
    motor_rad_to_translate_m 1 1 1 (translate_m_to_motor_rad 1 1 1 3) = 3 :=
  ⟨⟨one_pos, one_pos, one_pos⟩,
   arm_translate_roundtrip 1 1 1 3 one_pos one_pos one_pos⟩

/-! ### C10 helper lemmas: the length-140 invariant of the stored reading -/

theorem joyInitLoop_reading_length (lines : List (List Char))
    (found connect : Bool) (reading : List Char)
    (h : reading.length = 140) :
    ∀ f2 c2 r2, joyInitLoop lines found connect reading =
      Except.ok (f2, c2, r2) → r2.length = 140 := by
  induction lines generalizing found connect reading with
  | nil =>
    intro f2 c2 r2 hok
    simp only [joyInitLoop] at hok
    cases hok
    exact h
  | cons r rest ih =>
    intro f2 c2 r2 hok
    simp only [joyInitLoop] at hok
    by_cases hf : found
    · rw [if_pos hf] at hok
      cases hok
      exact h
    · rw [if_neg hf] at hok
      by_cases hx : isNoXbox r
      · simp [hx] at hok
      · rw [if_neg (by simpa using hx)] at hok
        by_cases h140 : r.length = 140
        · rw [if_pos h140] at hok
          exact ih _ _ _ h140 _ _ _ hok
        · rw [if_neg h140] at hok
          exact ih _ _ _ h _ _ _ hok

theorem joyInit_reading_length (rate : ℚ) (lines : List (List Char))
    (s : JoyState) (h : joyInit rate lines = Except.ok s) :
    s.reading.length = 140 := by
  simp only [joyInit] at h
  rcases hL : joyInitLoop lines false false initialReading with e | trip
  · rw [hL] at h; cases h
  · rw [hL] at h
    obtain ⟨f2, c2, r2⟩ := trip
    have hr : r2.length = 140 :=
      joyInitLoop_reading_length lines false false initialReading
        (by simp [initialReading]) f2 c2 r2 hL
    by_cases hf : f2 = true
    · subst hf
      simp only [if_pos rfl] at h
      cases h
      exact hr
    · simp [hf] at h

theorem joyRefresh_reading_length (s : JoyState) (now : ℚ)
    (lines : List (List Char)) (s2 : JoyState)
    (h : s.reading.length = 140)
    (hok : joyRefresh s now lines = Except.ok s2) :
    s2.reading.length = 140 := by
  simp only [joyRefresh] at hok
  by_cases hdue : s.refreshTime < now
  · rw [if_pos hdue] at hok
    match lines with
    | [] =>
      simp only at hok
      cases hok
      exact h
    | r :: rest =>
      simp only at hok
      rcases hd : drainLines (r :: rest) [] with e | response
      · rw [hd] at hok; cases hok
      · rw [hd] at hok
        dsimp only at hok
        by_cases h140 : response.length = 140
        · rw [if_pos h140] at hok
          cases hok
          exact h140
        · rw [if_neg h140] at hok
          cases hok
          exact h
  · rw [if_neg hdue] at hok
    cases hok
    exact h

/-- C10: in every reachable `Joystick` state the stored reading has length
exactly 140 — it starts as 140 zero characters and is only ever replaced by
a length-140 line — so every fixed-offset accessor slice (up through
`[136,139)`) is fully in bounds; and the pre-telemetry initial reading is
all digit characters, so every accessor slice of it decodes as an integer. -/
theorem joy_reading_length_invariant :
    (∀ s : JoyState, JoyReachable s →
      s.reading.length = 140 ∧
      ∀ p ∈ accessorRanges,
        (readingSlice s.reading p.1 p.2).length = p.2 - p.1) ∧
    (∀ p ∈ accessorRanges,
      ∀ ch ∈ readingSlice initialReading p.1 p.2, ch.isDigit = true) := by
  constructor
  · intro s hs
    have h140 : s.reading.length = 140 := by
      induction hs with
      | boot rate lines s h => exact joyInit_reading_length rate lines s h
      | step s now lines s2 _ hok ih =>
        exact joyRefresh_reading_length s now lines s2 ih hok
    refine ⟨h140, ?_⟩
    have hlen : ∀ a b : ℕ, a ≤ b → b ≤ 140 →
        (readingSlice s.reading a b).length = b - a := by
      intro a b hab hb
      simp [readingSlice, List.length_take, List.length_drop, h140]
      omega
    intro p hp
    fin_cases hp <;> exact hlen _ _ (by norm_num) (by norm_num)
  · decide

theorem joy_reading_length_invariant_witness :
    joyInit 30 [ctrlCLine] = Except.ok js0 ∧ js0.reading.length = 140 :=
  ⟨rfl,
   (joy_reading_length_invariant.1 js0
     (JoyReachable.boot 30 [ctrlCLine] js0 rfl)).1⟩

/-- C2 (counterexample): the snapshot mapping has 21 keys, not the 20 the
claim states — here evaluated on a freshly constructed Xbox aggregator under
a disconnected read condition. -/
theorem snapshot_key_count_is_21_not_20 :
    ((XboxController.construct.get_state
        (Except.error JoyError.disconnected)).2.map Prod.fst).length ≠ 20 := by
  decide

/-- C2 (amended): for every aggregator state and read condition, and every
gamepad primitive state, both `get_state` snapshots carry exactly the same
fixed key list — 21 string keys — so the two key sets are identical. -/
theorem snapshot_schema_parity_21 (c : XboxController)
    (readRes : Except JoyError JoyRead) (g : GamePadPrimitives) :
    (c.get_state readRes).2.map Prod.fst = snapshotKeys ∧
    (gamePadGetState g).map Prod.fst = snapshotKeys ∧
    snapshotKeys.length = 21 :=
  ⟨rfl, rfl, rfl⟩

/-- C1: `XboxController.start` (line 377) evaluates `xbox.Joystick()`, but
`xbox` is a free name bound neither at module level nor as a Python builtin,
so every call to `start` raises `NameError` at that point — before any
driver-process client is constructed and outside the `except IOError`
handler — instead of catching a device-not-detected failure and returning
`True` as the claim describes. -/
theorem xbox_start_name_resolution_bug :
    "xbox" ∈ xboxStartFreeNames ∧ "xbox" ∉ xboxControllerModuleNames := by
  decide

/-- C3: `GamePadController.__init__` calls `set_zero_state`, whose first
primitive access dereferences `self.middle_led_ring_button`, an attribute
`__init__` never assigned — so construction raises `AttributeError` rather
than succeeding with a quiescent zero state as the claim describes. -/
theorem gamepad_construct_missing_attribute :
    gamePadFirstMissingAttr = some "middle_led_ring_button" ∧
    "middle_led_ring_button" ∉ gamePadInitAttrs := by
  decide

/-- C4: `Arm.set_velocity` invokes the selected base method through the
class without passing `self`, so `v_m` binds the base method's `self`
parameter and every later argument shifts one slot (the last parameter
falls back to its default) — the parameters are not passed through
unchanged.  Both branches of the `safe_set_velocit` selector are evaluated
at a concrete call below. -/
theorem arm_set_velocity_argument_shift :
    Arm.set_velocity .armObj 0 (.num (1/10)) (.num 2) (.num 3) (.num 4)
        (.num 5) (.boolean true) (.num 6) (.num 7) =
      { self_obj := .num (1/10), v_m := .num 2, a_m := .num 3,
        stiffness := .num 4, contact_thresh_pos_N := .num 5,
        contact_thresh_neg_N := .boolean true, req_calibration := .num 6,
        contact_thresh_pos := .num 7, contact_thresh_neg := .pyNone,
        safe_variant := false } ∧
    Arm.set_velocity .armObj 1 (.num (1/10)) (.num 2) (.num 3) (.num 4)
        (.num 5) (.boolean true) (.num 6) (.num 7) =
      { self_obj := .num (1/10), v_m := .num 2, a_m := .num 3,
        stiffness := .num 4, contact_thresh_pos_N := .num 5,
        contact_thresh_neg_N := .boolean true, req_calibration := .num 6,
        contact_thresh_pos := .num 7, contact_thresh_neg := .pyNone,
        safe_variant := true } ∧
    (Arm.set_velocity .armObj 0 (.num (1/10)) (.num 2) (.num 3) (.num 4)
        (.num 5) (.boolean true) (.num 6) (.num 7)).v_m ≠ .num (1/10) := by
  refine ⟨rfl, rfl, ?_⟩
  show (PyVal.num 2 : PyVal) ≠ PyVal.num (1/10)
  intro h
  have h2 : (2 : ℚ) = 1 / 10 := by injection h
  norm_num at h2
